import Mathlib

/-!
Verification of the adaptive polling core of the ThirdBrAIn-Tools repository.

The repository contains three polling loops:
* `BaseProvider.poll_until_complete` in
  `agentskills/deep-research/src/deep_research/shared/base.py` (and the identical
  copy in `agentskills/deep-research/scripts/research.py`), with a fixed
  30-minute timeout;
* `poll_until_complete` in `scripts/poll_research.py`, with a configurable
  `max_timeout` parameter, which normalizes raw server statuses and terminates
  the process via `sys.exit(1)` on failure or timeout;
* `poll_generation_status` in `scripts/generate_gamma_presentation.py`, which
  polls at a fixed 30-second interval with a 10-minute ceiling.

The loops are embedded as pure functions over an idealized clock: status checks
take no time, and `time.sleep(interval)` advances elapsed time by exactly
`interval`.  Elapsed time is therefore the sum of the sleep intervals performed
so far, a natural number.
-/

/-- Adaptive poll interval, from `_get_adaptive_poll_interval` in
`shared/base.py` (lines 62-85) and the identical module-level
`get_adaptive_poll_interval` in `scripts/poll_research.py` (lines 66-83).
Elapsed seconds is a non-negative Python int, modelled as `Nat`. -/
def get_adaptive_poll_interval (elapsed_seconds : Nat) : Nat :=
  if elapsed_seconds < 10 then 10
  else if elapsed_seconds < 30 then 30
  else if elapsed_seconds < 300 then 60
  else 300

/-- Every tier interval is at least 10 seconds. -/
lemma ten_le_interval (e : Nat) : 10 ≤ get_adaptive_poll_interval e := by
  unfold get_adaptive_poll_interval
  split <;> [omega; split <;> [omega; (split <;> omega)]]

/-- Trace of one polling session: the status string returned by the loop
(for `base.py` one of "completed", "failed", or "in_progress" on timeout),
the total number of status checks performed, and the list of sleep durations
in the order they were performed. -/
structure PollTrace where
  outcome : String
  polls : Nat
  sleeps : List Nat
deriving DecidableEq

/-- Loop body of `poll_until_complete` (`shared/base.py` lines 108-143 and
`scripts/poll_research.py` lines 99-156 share this control flow): on each
iteration increment the poll counter, check the status, return on "completed"
or "failed", otherwise return "in_progress" once `elapsed >= max_timeout`, and
otherwise sleep for the adaptive interval and continue.  `check` gives the
status returned by the n-th status check (1-based); `k` is the number of
checks already performed and `elapsed` the seconds elapsed so far. -/
def poll_until_complete_aux (check : Nat → String) (max_timeout : Nat)
    (elapsed k : Nat) : PollTrace :=
  let status := check (k + 1)
  if status = "completed" then ⟨"completed", k + 1, []⟩
  else if status = "failed" then ⟨"failed", k + 1, []⟩
  else if max_timeout ≤ elapsed then ⟨"in_progress", k + 1, []⟩
  else
    let interval := get_adaptive_poll_interval elapsed
    let rest := poll_until_complete_aux check max_timeout (elapsed + interval) (k + 1)
    ⟨rest.outcome, rest.polls, interval :: rest.sleeps⟩
termination_by max_timeout - elapsed
decreasing_by
  have := ten_le_interval elapsed
  omega

/-- A full polling session with a configurable timeout, as in
`scripts/poll_research.py`: `start_time` is now, so elapsed starts at 0,
and `poll_num` starts at 0. -/
def poll_until_complete (check : Nat → String) (max_timeout : Nat) : PollTrace :=
  poll_until_complete_aux check max_timeout 0 0

/-- The `base.py` method hardcodes `max_timeout = 1800` (30 minutes). -/
def base_poll_until_complete (check : Nat → String) : PollTrace :=
  poll_until_complete check 1800

/-- One-step unfolding of the loop body. -/
lemma poll_until_complete_aux_eq (check : Nat → String) (max_timeout elapsed k : Nat) :
    poll_until_complete_aux check max_timeout elapsed k =
      if check (k + 1) = "completed" then ⟨"completed", k + 1, []⟩
      else if check (k + 1) = "failed" then ⟨"failed", k + 1, []⟩
      else if max_timeout ≤ elapsed then ⟨"in_progress", k + 1, []⟩
      else
        ⟨(poll_until_complete_aux check max_timeout
            (elapsed + get_adaptive_poll_interval elapsed) (k + 1)).outcome,
         (poll_until_complete_aux check max_timeout
            (elapsed + get_adaptive_poll_interval elapsed) (k + 1)).polls,
         get_adaptive_poll_interval elapsed ::
           (poll_until_complete_aux check max_timeout
             (elapsed + get_adaptive_poll_interval elapsed) (k + 1)).sleeps⟩ := by
  rw [poll_until_complete_aux]

/-- Elapsed time at successive status checks of an uninterrupted session that
starts from elapsed time `e`: `sched e j` is the elapsed time at the
`(j+1)`-th check counted from that point, each step adding the adaptive
interval slept after the previous check. -/
def sched (e : Nat) : Nat → Nat
  | 0 => e
  | j + 1 => sched e j + get_adaptive_poll_interval (sched e j)

/-- Elapsed time at the `(j+1)`-th status check of a session in which every
earlier check came back non-terminal: 0, 10, 40, 100, 160, ... -/
def elapsed_schedule (j : Nat) : Nat := sched 0 j

lemma sched_shift (e : Nat) :
    ∀ j, sched e (j + 1) = sched (e + get_adaptive_poll_interval e) j := by
  intro j
  induction j with
  | zero => rfl
  | succ j ih => rw [sched, ih, sched]

/-- Unfolding `N` consecutive non-terminal, under-timeout iterations of the
polling loop: the trace is the `N` scheduled sleeps followed by whatever the
loop does from the advanced state. -/
lemma poll_aux_skip (check : Nat → String) (max_timeout : Nat) :
    ∀ (N e k : Nat),
    (∀ i, k < i → i ≤ k + N → check i ≠ "completed" ∧ check i ≠ "failed") →
    (∀ j, j < N → sched e j < max_timeout) →
    poll_until_complete_aux check max_timeout e k =
      ⟨(poll_until_complete_aux check max_timeout (sched e N) (k + N)).outcome,
       (poll_until_complete_aux check max_timeout (sched e N) (k + N)).polls,
       (List.range N).map (fun j => get_adaptive_poll_interval (sched e j)) ++
         (poll_until_complete_aux check max_timeout (sched e N) (k + N)).sleeps⟩ := by
  intro N
  induction N with
  | zero =>
      intro e k _ _
      simp [sched]
  | succ N ih =>
      intro e k hnt he
      have h1 : check (k + 1) ≠ "completed" ∧ check (k + 1) ≠ "failed" :=
        hnt (k + 1) (by omega) (by omega)
      have h0 : e < max_timeout := he 0 (by omega)
      rw [poll_until_complete_aux_eq]
      rw [if_neg h1.1, if_neg h1.2, if_neg (by omega)]
      have hrec := ih (e + get_adaptive_poll_interval e) (k + 1)
        (fun i hi1 hi2 => hnt i (by omega) (by omega))
        (fun j hj => by rw [← sched_shift]; exact he (j + 1) (by omega))
      rw [hrec]
      have hsched : sched (e + get_adaptive_poll_interval e) N = sched e (N + 1) :=
        (sched_shift e N).symm
      have hrange : (List.range (N + 1)).map (fun j => get_adaptive_poll_interval (sched e j)) =
          get_adaptive_poll_interval (sched e 0) ::
            (List.range N).map
              (fun j => get_adaptive_poll_interval (sched (e + get_adaptive_poll_interval e) j)) := by
        rw [List.range_succ_eq_map, List.map_cons, List.map_map]
        congr 1
        apply List.map_congr_left
        intro j _
        simp [Function.comp, sched_shift]
      have hk : k + 1 + N = k + (N + 1) := by omega
      rw [hsched, hrange, hk]
      simp [sched]

/-- If the status check never returns a terminal status, the session ends with
outcome "in_progress", the poller never begins a sleep once elapsed time has
reached `max_timeout`, and the session's last status check is the first one at
which elapsed time is at least `max_timeout`. -/
lemma poll_aux_timeout (check : Nat → String) (max_timeout : Nat)
    (hnt : ∀ n, check n ≠ "completed" ∧ check n ≠ "failed") :
    ∀ (m e k : Nat), max_timeout ≤ e + m →
    (poll_until_complete_aux check max_timeout e k).outcome = "in_progress" ∧
    (∀ i, i < (poll_until_complete_aux check max_timeout e k).sleeps.length →
      e + ((poll_until_complete_aux check max_timeout e k).sleeps.take i).sum < max_timeout) := by
  intro m
  induction m with
  | zero =>
      intro e k h
      rw [poll_until_complete_aux_eq, if_neg (hnt (k + 1)).1, if_neg (hnt (k + 1)).2,
        if_pos (by omega)]
      exact ⟨rfl, by intro i hi; simp at hi⟩
  | succ m ih =>
      intro e k h
      rw [poll_until_complete_aux_eq, if_neg (hnt (k + 1)).1, if_neg (hnt (k + 1)).2]
      by_cases hto : max_timeout ≤ e
      · rw [if_pos hto]
        exact ⟨rfl, by intro i hi; simp at hi⟩
      · rw [if_neg hto]
        have hint := ten_le_interval e
        have hrec := ih (e + get_adaptive_poll_interval e) (k + 1) (by omega)
        refine ⟨hrec.1, ?_⟩
        intro i hi
        simp only [List.length_cons] at hi
        match i with
        | 0 => simpa using (by omega : e < max_timeout)
        | i + 1 =>
            have := hrec.2 i (by simpa using Nat.lt_of_succ_lt_succ hi)
            simp only [List.take_succ_cons, List.sum_cons]
            omega

/-- Status normalization of `scripts/poll_research.py` (lines 114-124): the raw
server status (the response's "status" field, defaulted to "unknown" when the
field is missing) is mapped onto the three-way enum.  `OpenAIProvider.check_status`
in `agentskills/deep-research/scripts/research.py` (lines 355-376) applies the
identical mapping. -/
def normalize_status (status : String) : String :=
  if status = "processing" ∨ status = "pending" then "in_progress"
  else if status = "completed" then "completed"
  else if status = "failed" then "failed"
  else "in_progress"

/-- The raw status read from a server response: `response.get("status", "unknown")`.
`none` models a response without a "status" field. -/
def response_status (field : Option String) : String := field.getD "unknown"

/-- Normalized status as computed by `OpenAIProvider.check_status` from a
response whose "status" field is `field`. -/
def OpenAIProvider.check_status (field : Option String) : String :=
  normalize_status (response_status field)

/-- The polling session of `scripts/poll_research.py`, whose loop body is the
same control flow as `base.py` but over normalized raw statuses; `check n` is
the "status" field of the n-th status response (`none` when absent). -/
def poll_research_session (check : Nat → Option String) (max_timeout : Nat) : PollTrace :=
  poll_until_complete (fun n => normalize_status (response_status (check n))) max_timeout

/-- What `scripts/poll_research.py` does with each loop outcome (lines 139-152):
on "completed" it returns the response dict to its caller (`none` = no exit),
on "failed" it calls `sys.exit(1)`, and on timeout — after printing that the
request is still in progress — it also calls `sys.exit(1)`. -/
def poll_research_exit_code (outcome : String) : Option Nat :=
  if outcome = "completed" then none
  else if outcome = "failed" then some 1
  else some 1

/-- Gamma API constants, `scripts/generate_gamma_presentation.py` lines 25-26. -/
def TIMEOUT_MS : Nat := 10 * 60 * 1000

/-- Fixed poll interval of the Gamma generator, in milliseconds (line 26). -/
def POLL_INTERVAL_MS : Nat := 30 * 1000

/-- Character-wise lowercasing, modelling Python str.lower (as applied by
`generate_gamma_presentation.py` to ASCII status strings). -/
def str_lower (s : String) : String := ⟨s.data.map Char.toLower⟩

/-- Predicate `is_completed` of `generate_gamma_presentation.py` (lines 114-117). -/
def is_completed (status : String) : Bool :=
  str_lower status = "completed" || str_lower status = "succeeded"

/-- Predicate `is_failed` of `generate_gamma_presentation.py` (lines 120-123). -/
def is_failed (status : String) : Bool :=
  str_lower status = "failed" || str_lower status = "error"

/-- Terminal result of `poll_generation_status`: a completed generation returns
a dict carrying the export URL (or an error that no URL was found), a failed
one a dict with a "Generation failed" error, and expiry of the ceiling a dict
with a "Timed out waiting for generation" error — all returned values, never
exceptions. -/
inductive GammaOutcome where
  | completed : GammaOutcome
  | failed : GammaOutcome
  | timedOut : GammaOutcome
deriving DecidableEq

/-- Trace of one run of `poll_generation_status`: outcome, number of status
requests made, and sleep durations (milliseconds) in order. -/
structure GammaTrace where
  outcome : GammaOutcome
  polls : Nat
  sleeps : List Nat
deriving DecidableEq

/-- Loop of `poll_generation_status` (`generate_gamma_presentation.py` lines
126-173): while elapsed time is below `TIMEOUT_MS`, fetch the status (the
lowercased "status"/"state" field; `check n` is the raw field of the n-th
response), return on completed or failed, otherwise sleep 30 seconds; once the
while-condition fails, return the timed-out dict.  `k` counts the iterations
already performed, and since every iteration sleeps exactly
`POLL_INTERVAL_MS`, the elapsed milliseconds when the while-condition is next
tested are `k * POLL_INTERVAL_MS` under the idealized clock. -/
def poll_generation_status_aux (check : Nat → String) (k : Nat) : GammaTrace :=
  if k * POLL_INTERVAL_MS < TIMEOUT_MS then
    let status := str_lower (check (k + 1))
    if is_completed status then ⟨.completed, k + 1, []⟩
    else if is_failed status then ⟨.failed, k + 1, []⟩
    else
      let rest := poll_generation_status_aux check (k + 1)
      ⟨rest.outcome, rest.polls, POLL_INTERVAL_MS :: rest.sleeps⟩
  else ⟨.timedOut, k, []⟩
termination_by TIMEOUT_MS / POLL_INTERVAL_MS - k
decreasing_by
  simp only [TIMEOUT_MS, POLL_INTERVAL_MS] at *
  omega

/-- A full run of `poll_generation_status`, starting with no iterations done
(elapsed 0). -/
def poll_generation_status (check : Nat → String) : GammaTrace :=
  poll_generation_status_aux check 0

/-- One-step unfolding of the Gamma polling loop. -/
lemma poll_generation_status_aux_eq (check : Nat → String) (k : Nat) :
    poll_generation_status_aux check k =
      if k * POLL_INTERVAL_MS < TIMEOUT_MS then
        if is_completed (str_lower (check (k + 1))) then ⟨.completed, k + 1, []⟩
        else if is_failed (str_lower (check (k + 1))) then ⟨.failed, k + 1, []⟩
        else
          ⟨(poll_generation_status_aux check (k + 1)).outcome,
           (poll_generation_status_aux check (k + 1)).polls,
           POLL_INTERVAL_MS :: (poll_generation_status_aux check (k + 1)).sleeps⟩
      else ⟨.timedOut, k, []⟩ := by
  rw [poll_generation_status_aux]

/-- Every sleep performed by the Gamma poller is exactly `POLL_INTERVAL_MS`:
the interval is fixed, not adaptive. -/
lemma gamma_sleeps_const (check : Nat → String) :
    ∀ (m k : Nat), TIMEOUT_MS ≤ (k + m) * POLL_INTERVAL_MS →
    ∀ s ∈ (poll_generation_status_aux check k).sleeps, s = POLL_INTERVAL_MS := by
  intro m
  induction m with
  | zero =>
      intro k h s hs
      rw [poll_generation_status_aux_eq,
        if_neg (by simp only [TIMEOUT_MS, POLL_INTERVAL_MS] at *; omega)] at hs
      simp at hs
  | succ m ih =>
      intro k h s hs
      rw [poll_generation_status_aux_eq] at hs
      by_cases he : k * POLL_INTERVAL_MS < TIMEOUT_MS
      · rw [if_pos he] at hs
        by_cases hc : is_completed (str_lower (check (k + 1)))
        · rw [if_pos hc] at hs; simp at hs
        · rw [if_neg hc] at hs
          by_cases hf : is_failed (str_lower (check (k + 1)))
          · rw [if_pos hf] at hs; simp at hs
          · rw [if_neg hf] at hs
            simp only [List.mem_cons] at hs
            rcases hs with rfl | hs
            · rfl
            · exact ih (k + 1) (by simp only [TIMEOUT_MS, POLL_INTERVAL_MS] at *; omega) s hs
      · rw [if_neg he] at hs; simp at hs

/-- If no status check ever returns a terminal status, the Gamma poller times
out, returning the timed-out dict rather than raising. -/
lemma gamma_timeout (check : Nat → String)
    (hnt : ∀ n, is_completed (str_lower (check n)) = false ∧ is_failed (str_lower (check n)) = false) :
    ∀ (m k : Nat), TIMEOUT_MS ≤ (k + m) * POLL_INTERVAL_MS →
    (poll_generation_status_aux check k).outcome = GammaOutcome.timedOut := by
  intro m
  induction m with
  | zero =>
      intro k h
      rw [poll_generation_status_aux_eq,
        if_neg (by simp only [TIMEOUT_MS, POLL_INTERVAL_MS] at *; omega)]
  | succ m ih =>
      intro k h
      rw [poll_generation_status_aux_eq]
      by_cases he : k * POLL_INTERVAL_MS < TIMEOUT_MS
      · rw [if_pos he, if_neg (by simp [(hnt (k + 1)).1]), if_neg (by simp [(hnt (k + 1)).2])]
        exact ih (k + 1) (by simp only [TIMEOUT_MS, POLL_INTERVAL_MS] at *; omega)
      · rw [if_neg he]

/-- Unfolding `N` consecutive non-terminal Gamma iterations, each of which is
reached with elapsed time below the ceiling: the trace is `N` fixed 30-second
sleeps followed by whatever the loop does from iteration `k + N`. -/
lemma gamma_skip (check : Nat → String) :
    ∀ (N k : Nat),
    (∀ i, k < i → i ≤ k + N →
      is_completed (str_lower (check i)) = false ∧ is_failed (str_lower (check i)) = false) →
    (∀ j, k ≤ j → j < k + N → j * POLL_INTERVAL_MS < TIMEOUT_MS) →
    poll_generation_status_aux check k =
      ⟨(poll_generation_status_aux check (k + N)).outcome,
       (poll_generation_status_aux check (k + N)).polls,
       List.replicate N POLL_INTERVAL_MS ++ (poll_generation_status_aux check (k + N)).sleeps⟩ := by
  intro N
  induction N with
  | zero => intro k _ _; simp
  | succ N ih =>
      intro k hnt he
      rw [poll_generation_status_aux_eq,
        if_pos (he k (by omega) (by omega)),
        if_neg (by simp [(hnt (k + 1) (by omega) (by omega)).1]),
        if_neg (by simp [(hnt (k + 1) (by omega) (by omega)).2]),
        ih (k + 1) (fun i h1 h2 => hnt i (by omega) (by omega))
          (fun j h1 h2 => he j (by omega) (by omega))]
      have hk : k + 1 + N = k + (N + 1) := by omega
      rw [hk]
      simp [List.replicate_succ]



/-- Message inside a DeepSeek chat completion choice: `message.get("content", "")`
and `message.get("reasoning_content", "")`, both defaulting to the empty string
when the field is missing. -/
structure DSMessage where
  content : String
  reasoning_content : String
deriving DecidableEq

/-- The part of a DeepSeek chat completion response read by `_extract_content`:
its "choices" list, or `none` when the response has no "choices" key. -/
structure DSResponse where
  choices : Option (List DSMessage)
deriving DecidableEq

/-- Content extraction of `DeepSeekProvider._extract_content`
(`agentskills/deep-research/scripts/research.py` lines 560-579): take the
first choice's message; when its reasoning content is non-empty (Python
truthiness of the string) format reasoning and response sections, otherwise
return the content alone; anything else yields the extraction error string. -/
def DeepSeekProvider.extract_content (response : DSResponse) : String :=
  match response.choices with
  | some (message :: _) =>
      if message.reasoning_content ≠ "" then
        "## Reasoning\n\n" ++ message.reasoning_content ++ "\n\n## Response\n\n"
          ++ message.content
      else
        message.content
  | _ => "Error: Unable to extract response content"

/-- A citation handed to `format_markdown_report`: either a dict with "url" and
"title" fields (each defaulting to "") or a plain string. -/
inductive Citation where
  | dict (url : String) (title : String) : Citation
  | str (s : String) : Citation
deriving DecidableEq

/-- Rendering of one citation at 1-based position `i`, from the loop in
`format_markdown_report` (`research.py` lines 110-119). -/
def format_citation (i : Nat) (c : Citation) : String :=
  match c with
  | .dict url title =>
      if url ≠ "" then "[" ++ toString i ++ "] " ++ title ++ ": " ++ url ++ "\n"
      else "[" ++ toString i ++ "] " ++ title ++ "\n"
  | .str s => "[" ++ toString i ++ "] " ++ s ++ "\n"

/-- Markdown assembly of `format_markdown_report` (`research.py` lines 94-121):
a title heading, an optional source line, the content, and — when the
citations list is non-empty (Python truthiness; `none` models passing no
citations) — a references section enumerated from 1. -/
def format_markdown_report (title content : String) (citations : Option (List Citation))
    (source : Option String) : String :=
  "# " ++ title ++ "\n"
    ++ (match source with
        | some s => "> Research conducted with " ++ s ++ "\n"
        | none => "")
    ++ content
    ++ (match citations with
        | some cs =>
            if cs ≠ [] then
              "\n## References\n"
                ++ String.join ((List.range cs.length).zipWith
                      (fun i c => format_citation (i + 1) c) cs)
            else ""
        | none => "")

/-- One cached entry of `DeepSeekProvider._results_cache`: the raw response
plus the model and query recorded by `create_request` (lines 522-526). -/
structure DeepSeekCached where
  response : DSResponse
  model : String
  query : String
deriving DecidableEq

/-- The DeepSeek results cache, a Python dict keyed by request id: lookup
returns the cached entry if present. -/
def ResultsCache : Type := String → Option DeepSeekCached

/-- Status check of `DeepSeekProvider.check_status` (`research.py` lines
531-535): "completed" exactly when the request id is still in the results
cache, else "in_progress". -/
def DeepSeekProvider.check_status (cache : ResultsCache) (request_id : String) : String :=
  if (cache request_id).isSome then "completed" else "in_progress"

/-- Result retrieval of `DeepSeekProvider.get_results` (`research.py` lines
537-558): an id absent from the cache yields the retrieval error with no file
path and leaves the cache unchanged; a present id is popped from the cache,
its content extracted and formatted as a markdown report with source
"DeepSeek Reasoning" and no citations, and saved via `_save_report` (file
output, modelled by the capability `save`, which returns the written path or
`none` when saving fails). -/
def DeepSeekProvider.get_results (cache : ResultsCache)
    (save : String → String → Option String) (request_id : String) :
    (String × Option String) × ResultsCache :=
  match cache request_id with
  | none => (("Error: Request not found (already retrieved?)", none), cache)
  | some cached =>
      let content := DeepSeekProvider.extract_content cached.response
      let markdown := format_markdown_report "Research Report" content none
        (some "DeepSeek Reasoning")
      let report_file := save request_id markdown
      ((markdown, report_file),
       fun id => if id = request_id then none else cache id)

/-- C1: the poll-interval function is a pure function of elapsed seconds
returning exactly 10 for elapsed below 10, 30 for elapsed in [10, 30), 60 for
elapsed in [30, 300), and 300 for elapsed at least 300; elapsed exactly equal
to a tier boundary (10, 30, 300) selects the upper tier's interval. -/
theorem C1_adaptive_interval_tiers (e : Nat) :
    (e < 10 → get_adaptive_poll_interval e = 10) ∧
    (10 ≤ e → e < 30 → get_adaptive_poll_interval e = 30) ∧
    (30 ≤ e → e < 300 → get_adaptive_poll_interval e = 60) ∧
    (300 ≤ e → get_adaptive_poll_interval e = 300) ∧
    get_adaptive_poll_interval 10 = 30 ∧
    get_adaptive_poll_interval 30 = 60 ∧
    get_adaptive_poll_interval 300 = 300 := by
  refine ⟨fun h => ?_, fun h1 h2 => ?_, fun h1 h2 => ?_, fun h => ?_,
    by decide, by decide, by decide⟩ <;>
  · unfold get_adaptive_poll_interval
    split_ifs <;> omega

/-- Witness for C1 at the concrete inputs 5, 10, 299 and 300. -/
theorem C1_adaptive_interval_tiers_witness :
    get_adaptive_poll_interval 5 = 10 ∧ get_adaptive_poll_interval 10 = 30 ∧
    get_adaptive_poll_interval 299 = 60 ∧ get_adaptive_poll_interval 300 = 300 :=
  ⟨(C1_adaptive_interval_tiers 5).1 (by decide),
   (C1_adaptive_interval_tiers 10).2.1 (by decide) (by decide),
   (C1_adaptive_interval_tiers 299).2.2.1 (by decide) (by decide),
   (C1_adaptive_interval_tiers 300).2.2.2.1 (by decide)⟩

/-- C8: the poll-interval function is monotonically non-decreasing in elapsed
time. -/
theorem C8_interval_monotone (e1 e2 : Nat) (h : e1 ≤ e2) :
    get_adaptive_poll_interval e1 ≤ get_adaptive_poll_interval e2 := by
  unfold get_adaptive_poll_interval
  split_ifs <;> omega

/-- Witness for C8 at the concrete pair 5 and 40. -/
theorem C8_interval_monotone_witness :
    get_adaptive_poll_interval 5 ≤ get_adaptive_poll_interval 40 :=
  C8_interval_monotone 5 40 (by decide)

/-- C9: status normalization is total over arbitrary server status strings and
always yields one of "completed", "in_progress", "failed"; only the exact
strings "completed" and "failed" map to the terminal outcomes, and every other
string — including "unknown", the default for a missing status field, and
unrecognized values such as "cancelled" — maps to "in_progress". -/
theorem C9_status_normalization_total (s : String) :
    (normalize_status s = "completed" ∨ normalize_status s = "in_progress" ∨
      normalize_status s = "failed") ∧
    (normalize_status s = "completed" ↔ s = "completed") ∧
    (normalize_status s = "failed" ↔ s = "failed") ∧
    OpenAIProvider.check_status none = "in_progress" ∧
    normalize_status "unknown" = "in_progress" ∧
    normalize_status "cancelled" = "in_progress" := by
  refine ⟨?_, ?_, ?_, by decide, by decide, by decide⟩
  · unfold normalize_status
    split_ifs <;> simp
  · unfold normalize_status
    split_ifs with h1 h2 h3
    · rcases h1 with rfl | rfl <;> simp
    · simp [h2]
    · subst h3; simp
    · simp
      intro hc
      exact h2 hc
  · unfold normalize_status
    split_ifs with h1 h2 h3
    · rcases h1 with rfl | rfl <;> simp
    · subst h2; simp
    · simp [h3]
    · simp
      intro hf
      exact h3 hf

/-- C10: DeepSeek result retrieval is one-shot.  For a request id present in
the results cache, check_status reports "completed"; the first get_results
returns the formatted report (with whatever path `_save_report` produced) and
removes the entry from the cache; afterwards check_status reports
"in_progress" and a second get_results with the same id returns the error
string "Error: Request not found (already retrieved?)" with no file path. -/
theorem C10_deepseek_one_shot (cache : ResultsCache)
    (save : String → String → Option String) (request_id : String)
    (cached : DeepSeekCached) (h : cache request_id = some cached) :
    DeepSeekProvider.check_status cache request_id = "completed" ∧
    (DeepSeekProvider.get_results cache save request_id).1 =
      (format_markdown_report "Research Report"
         (DeepSeekProvider.extract_content cached.response) none
         (some "DeepSeek Reasoning"),
       save request_id
         (format_markdown_report "Research Report"
           (DeepSeekProvider.extract_content cached.response) none
           (some "DeepSeek Reasoning"))) ∧
    (DeepSeekProvider.get_results cache save request_id).2 request_id = none ∧
    DeepSeekProvider.check_status
      (DeepSeekProvider.get_results cache save request_id).2 request_id = "in_progress" ∧
    (DeepSeekProvider.get_results
      (DeepSeekProvider.get_results cache save request_id).2 save request_id).1 =
      ("Error: Request not found (already retrieved?)", none) := by
  unfold DeepSeekProvider.check_status DeepSeekProvider.get_results
  rw [h]
  simp

/-- A concrete one-entry results cache for the C10 witness. -/
def sample_cache : ResultsCache :=
  fun id =>
    if id = "deepseek_140357" then
      some ⟨⟨some [⟨"The answer.", "Some reasoning."⟩]⟩, "deepseek-reasoner", "q"⟩
    else none

/-- A concrete save capability for the C10 witness. -/
def sample_save : String → String → Option String :=
  fun _ _ => some "99-TMP/OUTPUT/deepseek_report.md"

/-- Witness for C10 on the concrete one-entry cache. -/
theorem C10_deepseek_one_shot_witness :
    DeepSeekProvider.check_status sample_cache "deepseek_140357" = "completed" ∧
    (DeepSeekProvider.get_results sample_cache sample_save "deepseek_140357").1 =
      (format_markdown_report "Research Report"
         (DeepSeekProvider.extract_content
           (⟨some [⟨"The answer.", "Some reasoning."⟩]⟩ : DSResponse)) none
         (some "DeepSeek Reasoning"),
       sample_save "deepseek_140357"
         (format_markdown_report "Research Report"
           (DeepSeekProvider.extract_content
             (⟨some [⟨"The answer.", "Some reasoning."⟩]⟩ : DSResponse)) none
           (some "DeepSeek Reasoning"))) ∧
    (DeepSeekProvider.get_results sample_cache sample_save "deepseek_140357").2
      "deepseek_140357" = none ∧
    DeepSeekProvider.check_status
      (DeepSeekProvider.get_results sample_cache sample_save "deepseek_140357").2
      "deepseek_140357" = "in_progress" ∧
    (DeepSeekProvider.get_results
      (DeepSeekProvider.get_results sample_cache sample_save "deepseek_140357").2
      sample_save "deepseek_140357").1 =
      ("Error: Request not found (already retrieved?)", none) :=
  C10_deepseek_one_shot sample_cache sample_save "deepseek_140357"
    ⟨⟨some [⟨"The answer.", "Some reasoning."⟩]⟩, "deepseek-reasoner", "q"⟩
    (by unfold sample_cache; simp)

/-- C2 counterexample: with max_duration 25 and a status check that always
returns "in_progress", the poller checks at elapsed 0, 10 and 40, sleeping 10 s
and then 30 s.  The second sleep is scheduled even though it pushes elapsed
time from 10 past 25 to 40, so the session does sleep past cumulative
elapsed 25, contradicting the claim that the session ends as soon as the next
scheduled sleep would overshoot max_duration. -/
theorem C2_counterexample :
    poll_until_complete (fun _ => "in_progress") 25 =
      ⟨"in_progress", 3, [10, 30]⟩ ∧
    ¬ ((poll_until_complete (fun _ => "in_progress") 25).sleeps.sum ≤ 25) := by
  have h : poll_until_complete (fun _ => "in_progress") 25 =
      ⟨"in_progress", 3, [10, 30]⟩ := by
    simp [poll_until_complete, poll_until_complete_aux_eq, get_adaptive_poll_interval]
  refine ⟨h, ?_⟩
  rw [h]
  decide

/-- C2 amended: for every session whose status check never returns a terminal
status, the poller ends reporting "in_progress" (not an error), and the
timeout is only consulted after each status check: no sleep is ever begun once
cumulative elapsed time has reached max_duration, but the final sleep may push
cumulative elapsed time past max_duration before the session ends. -/
theorem C2_timeout_reports_in_progress (max_timeout : Nat) (check : Nat → String)
    (hnt : ∀ n, check n ≠ "completed" ∧ check n ≠ "failed") :
    (poll_until_complete check max_timeout).outcome = "in_progress" ∧
    (∀ i, i < (poll_until_complete check max_timeout).sleeps.length →
      ((poll_until_complete check max_timeout).sleeps.take i).sum < max_timeout) := by
  have h := poll_aux_timeout check max_timeout hnt max_timeout 0 0 (by omega)
  simpa [poll_until_complete] using h

/-- Witness for the amended C2 at max_duration 25 with an always-in-progress
status check. -/
theorem C2_timeout_reports_in_progress_witness :
    (poll_until_complete (fun _ => "in_progress") 25).outcome = "in_progress" ∧
    (∀ i, i < (poll_until_complete (fun _ => "in_progress") 25).sleeps.length →
      ((poll_until_complete (fun _ => "in_progress") 25).sleeps.take i).sum < 25) :=
  C2_timeout_reports_in_progress 25 (fun _ => "in_progress")
    (fun _ => by constructor <;> simp)

/-- C7: the poller carries no session state across invocations.  Whatever a
previous session did — in particular one that timed out reporting
"in_progress" — a fresh session whose first status check returns "completed"
terminates at its very first check with outcome "completed", zero sleeps, and
its poll counter restarted at 1. -/
theorem C7_no_session_state (check1 : Nat → String) (m1 : Nat)
    ( _hprev : (poll_until_complete check1 m1).outcome = "in_progress")
    (check2 : Nat → String) (m2 : Nat) (hnow : check2 1 = "completed") :
    poll_until_complete check2 m2 = ⟨"completed", 1, []⟩ := by
  unfold poll_until_complete
  rw [poll_until_complete_aux_eq]
  simp [hnow]

/-- Witness for C7: a session that timed out at max_duration 25, then a fresh
session answering "completed" immediately. -/
theorem C7_no_session_state_witness :
    poll_until_complete (fun _ => "completed") 1800 = ⟨"completed", 1, []⟩ :=
  C7_no_session_state (fun _ => "in_progress") 25
    (by simp [poll_until_complete, poll_until_complete_aux_eq, get_adaptive_poll_interval])
    (fun _ => "completed") 1800 rfl

/-- C3 counterexample: the claim that every poller surfaces a distinguished
"still in progress" result rather than an error does not hold for
`scripts/poll_research.py`: when its session times out (here max_timeout 25
with a server that keeps answering "pending"), the script does not return a
result — it terminates the process via sys.exit(1), the same exit code as its
failure branch. -/
theorem C3_counterexample :
    (poll_research_session (fun _ => some "pending") 25).outcome = "in_progress" ∧
    poll_research_exit_code
      (poll_research_session (fun _ => some "pending") 25).outcome = some 1 ∧
    poll_research_exit_code "failed" = some 1 := by
  have h : poll_research_session (fun _ => some "pending") 25 =
      ⟨"in_progress", 3, [10, 30]⟩ := by
    simp [poll_research_session, poll_until_complete, poll_until_complete_aux_eq,
      normalize_status, response_status, get_adaptive_poll_interval]
  rw [h]
  exact ⟨rfl, rfl, rfl⟩

/-- C3 amended: when the timeout ceiling elapses while the status is still
non-terminal, the base-provider poller returns the distinguished value
"in_progress" and the Gamma poller returns its timed-out result dict, neither
raising an exception; `scripts/poll_research.py`, however, prints that the
request is still in progress and then terminates the process with exit
code 1 — the same exit code as its failure branch — instead of returning a
result. -/
theorem C3_timeout_surfacing (check : Nat → String) (rcheck : Nat → Option String)
    (gcheck : Nat → String) (max_timeout : Nat)
    (hnt : ∀ n, check n ≠ "completed" ∧ check n ≠ "failed")
    (hrnt : ∀ n, normalize_status (response_status (rcheck n)) ≠ "completed" ∧
      normalize_status (response_status (rcheck n)) ≠ "failed")
    (hgnt : ∀ n, is_completed (str_lower (gcheck n)) = false ∧
      is_failed (str_lower (gcheck n)) = false) :
    (base_poll_until_complete check).outcome = "in_progress" ∧
    (poll_generation_status gcheck).outcome = GammaOutcome.timedOut ∧
    poll_research_exit_code (poll_research_session rcheck max_timeout).outcome = some 1 := by
  refine ⟨?_, ?_, ?_⟩
  · have h := poll_aux_timeout check 1800 hnt 1800 0 0 (by omega)
    simpa [base_poll_until_complete, poll_until_complete] using h.1
  · exact gamma_timeout gcheck hgnt 20 0
      (by simp only [TIMEOUT_MS, POLL_INTERVAL_MS]; omega)
  · have h := poll_aux_timeout (fun n => normalize_status (response_status (rcheck n)))
      max_timeout hrnt max_timeout 0 0 (by omega)
    have houtcome : (poll_research_session rcheck max_timeout).outcome = "in_progress" := by
      simpa [poll_research_session, poll_until_complete] using h.1
    rw [houtcome]
    rfl

/-- Witness for the amended C3 with always-non-terminal stubs and
max_timeout 25 for the poll_research script. -/
theorem C3_timeout_surfacing_witness :
    (base_poll_until_complete (fun _ => "in_progress")).outcome = "in_progress" ∧
    (poll_generation_status (fun _ => "pending")).outcome = GammaOutcome.timedOut ∧
    poll_research_exit_code
      (poll_research_session (fun _ => some "processing") 25).outcome = some 1 :=
  C3_timeout_surfacing (fun _ => "in_progress") (fun _ => some "processing")
    (fun _ => "pending") 25
    (fun _ => by constructor <;> simp)
    (fun _ => by constructor <;> simp [normalize_status, response_status])
    (fun _ => by
      show is_completed (str_lower "pending") = false ∧
        is_failed (str_lower "pending") = false
      decide)

/-- The Gamma terminal predicates are disjoint: a failed status is never also
a completed one. -/
lemma is_failed_not_completed (s : String) (h : is_failed s = true) :
    is_completed s = false := by
  unfold is_failed at h
  unfold is_completed
  simp only [Bool.or_eq_true, decide_eq_true_eq] at h
  rcases h with h | h <;> simp [h]

/-- C6: for every N, with a status check that answers "in_progress" on the
first N calls and "completed" on call N+1, and the timeout not reached at any
of the first N calls, the poller terminates at call N+1 with outcome
"completed", having slept exactly N times with each sleep equal to the
adaptive interval for the elapsed time at that point. -/
theorem C6_completes_at_call_n_plus_one (max_timeout : Nat) (check : Nat → String)
    (N : Nat)
    (hip : ∀ i, 0 < i → i ≤ N → check i = "in_progress")
    (hcomp : check (N + 1) = "completed")
    (hto : ∀ j, j < N → elapsed_schedule j < max_timeout) :
    poll_until_complete check max_timeout =
      ⟨"completed", N + 1,
       (List.range N).map (fun j => get_adaptive_poll_interval (elapsed_schedule j))⟩ := by
  unfold poll_until_complete elapsed_schedule at *
  rw [poll_aux_skip check max_timeout N 0 0
      (fun i h1 h2 => by
        rw [hip i (by omega) (by omega)]
        exact ⟨by simp, by simp⟩)
      hto]
  simp only [Nat.zero_add]
  rw [poll_until_complete_aux_eq, if_pos hcomp]
  simp

/-- Witness for C6 at N = 2 with the 30-minute timeout. -/
theorem C6_completes_at_call_n_plus_one_witness :
    poll_until_complete (fun i => if i ≤ 2 then "in_progress" else "completed") 1800 =
      ⟨"completed", 3,
       (List.range 2).map (fun j => get_adaptive_poll_interval (elapsed_schedule j))⟩ :=
  C6_completes_at_call_n_plus_one 1800
    (fun i => if i ≤ 2 then "in_progress" else "completed") 2
    (fun i _ h2 => by simp [h2])
    (by norm_num)
    (by intro j hj; interval_cases j <;> decide)

/-- C4: a "failed" status on the k-th call is immediately fatal, regardless of
the remaining timeout budget.  For the research pollers the session returns
"failed" exactly at poll k with no further retry; the Gamma poller likewise
returns its failed result exactly at request k. -/
theorem C4_failed_propagates_immediately (max_timeout : Nat)
    (check gcheck : Nat → String) (k : Nat) (hk : 0 < k)
    (hip : ∀ i, 0 < i → i < k → check i ≠ "completed" ∧ check i ≠ "failed")
    (hfail : check k = "failed")
    (hto : ∀ j, j + 1 < k → elapsed_schedule j < max_timeout)
    (hgip : ∀ i, 0 < i → i < k →
      is_completed (str_lower (gcheck i)) = false ∧
      is_failed (str_lower (gcheck i)) = false)
    (hgfail : is_failed (str_lower (gcheck k)) = true)
    (hgwin : (k - 1) * POLL_INTERVAL_MS < TIMEOUT_MS) :
    poll_until_complete check max_timeout =
      ⟨"failed", k,
       (List.range (k - 1)).map (fun j => get_adaptive_poll_interval (elapsed_schedule j))⟩ ∧
    poll_generation_status gcheck =
      ⟨GammaOutcome.failed, k, List.replicate (k - 1) POLL_INTERVAL_MS⟩ := by
  have hN : k - 1 + 1 = k := by omega
  constructor
  · unfold poll_until_complete elapsed_schedule at *
    rw [poll_aux_skip check max_timeout (k - 1) 0 0
        (fun i h1 h2 => hip i (by omega) (by omega))
        (fun j hj => hto j (by omega))]
    simp only [Nat.zero_add]
    rw [poll_until_complete_aux_eq, hN, hfail]
    simp
  · unfold poll_generation_status
    rw [gamma_skip gcheck (k - 1) 0
        (fun i h1 h2 => hgip i (by omega) (by omega))
        (fun j h1 h2 => by
          have hle : j * POLL_INTERVAL_MS ≤ (k - 1) * POLL_INTERVAL_MS :=
            Nat.mul_le_mul_right _ (by omega)
          omega)]
    simp only [Nat.zero_add]
    rw [poll_generation_status_aux_eq, if_pos (by omega : (k - 1) * POLL_INTERVAL_MS < TIMEOUT_MS),
      hN, if_neg (by simp [is_failed_not_completed _ hgfail]), if_pos (by simp [hgfail])]
    simp

/-- Witness for C4 at k = 3: both pollers fail exactly at the third call. -/
theorem C4_failed_propagates_immediately_witness :
    poll_until_complete (fun i => if i = 3 then "failed" else "in_progress") 1800 =
      ⟨"failed", 3,
       (List.range 2).map (fun j => get_adaptive_poll_interval (elapsed_schedule j))⟩ ∧
    poll_generation_status (fun i => if i = 3 then "error" else "pending") =
      ⟨GammaOutcome.failed, 3, List.replicate 2 POLL_INTERVAL_MS⟩ :=
  C4_failed_propagates_immediately 1800
    (fun i => if i = 3 then "failed" else "in_progress")
    (fun i => if i = 3 then "error" else "pending") 3
    (by decide)
    (fun i _ h2 => by
      have h3 : i ≠ 3 := by omega
      constructor <;> simp [h3])
    (by norm_num)
    (by
      intro j hj
      have hcases : j = 0 ∨ j = 1 := by omega
      rcases hcases with rfl | rfl <;> decide)
    (fun i _ h2 => by
      have h3 : i ≠ 3 := by omega
      have hpend : is_completed (str_lower "pending") = false ∧
          is_failed (str_lower "pending") = false := by decide
      simpa [h3] using hpend)
    (by
      show is_failed (str_lower "error") = true
      decide)
    (by decide)

/-- C5 counterexample: the Gamma generator's loop does not use the adaptive
four-tier backoff schedule.  With a server that keeps answering "pending" it
performs 20 sleeps of 30000 ms each (then times out at the 10-minute ceiling),
whereas the adaptive schedule would begin with a 10-second sleep and grow the
intervals with elapsed time. -/
theorem C5_counterexample :
    poll_generation_status (fun _ => "pending") =
      ⟨GammaOutcome.timedOut, 20, List.replicate 20 POLL_INTERVAL_MS⟩ ∧
    ¬ ((poll_generation_status (fun _ => "pending")).sleeps =
        (List.range 20).map
          (fun j => 1000 * get_adaptive_poll_interval (elapsed_schedule j))) := by
  have hpend : is_completed (str_lower "pending") = false ∧
      is_failed (str_lower "pending") = false := by decide
  have h : poll_generation_status (fun _ => "pending") =
      ⟨GammaOutcome.timedOut, 20, List.replicate 20 POLL_INTERVAL_MS⟩ := by
    unfold poll_generation_status
    rw [gamma_skip (fun _ => "pending") 20 0
        (fun i h1 h2 => hpend)
        (fun j h1 h2 => by simp only [TIMEOUT_MS, POLL_INTERVAL_MS]; omega)]
    simp only [Nat.zero_add]
    rw [poll_generation_status_aux_eq, if_neg (by decide)]
    simp
  refine ⟨h, ?_⟩
  rw [h]
  decide

/-- C5 amended: the Gamma generator's polling loop re-queries the status
endpoint at a fixed 30-second interval — every sleep it performs equals
`POLL_INTERVAL_MS`, with no adaptive growth — until the job reaches a terminal
state, and returns a timed-out result when the status never becomes terminal
within the 10-minute ceiling. -/
theorem C5_fixed_interval_backoff (check : Nat → String) :
    (∀ s ∈ (poll_generation_status check).sleeps, s = POLL_INTERVAL_MS) ∧
    ((∀ n, is_completed (str_lower (check n)) = false ∧
        is_failed (str_lower (check n)) = false) →
      (poll_generation_status check).outcome = GammaOutcome.timedOut) := by
  constructor
  · exact gamma_sleeps_const check 20 0
      (by simp only [TIMEOUT_MS, POLL_INTERVAL_MS]; omega)
  · intro hnt
    exact gamma_timeout check hnt 20 0
      (by simp only [TIMEOUT_MS, POLL_INTERVAL_MS]; omega)

/-- Witness for the amended C5 with an always-"pending" server. -/
theorem C5_fixed_interval_backoff_witness :
    (∀ s ∈ (poll_generation_status (fun _ => "pending")).sleeps,
      s = POLL_INTERVAL_MS) ∧
    (poll_generation_status (fun _ => "pending")).outcome = GammaOutcome.timedOut :=
  ⟨(C5_fixed_interval_backoff (fun _ => "pending")).1,
   (C5_fixed_interval_backoff (fun _ => "pending")).2
     (fun _ => by
       show is_completed (str_lower "pending") = false ∧
         is_failed (str_lower "pending") = false
       decide)⟩
